import Mathlib

/- Shallow embedding of src/examples/BadOrderService.py.

   Modelling conventions:
   - Python floats are embedded as exact rationals (all literals in the
     source are decimal fractions, and every claimed result is exact in
     binary64 as well).
   - A line item dictionary is embedded as a record of optional fields;
     a missing key raises a KeyError, embedded as Except.error.
   - The sqlite database is embedded as the list of inserted rows;
     sqlite rowids are 1-based insertion indices.
   - datetime.now() is embedded as an ambient Nat clock value, constant
     during one call; str(datetime.now()) is its decimal rendering.
   - Side effects (the INSERT and the printed email line) are collected
     in an ordered trace; the string rendering of a number (Python repr
     of a float) is embedded as the canonical rendering of the rational.
-/

/-- One line item dictionary: only the keys the code reads are modelled,
each possibly absent. -/
structure RawItem where
  price : Option ℚ
  quantity : Option ℚ
deriving DecidableEq

/-- Python exceptions that the embedded code can raise. -/
inductive PyErr where
  | keyError : String → PyErr
deriving DecidableEq

/-- A row of the orders table: (customer, total, date). -/
structure OrderRecord where
  customer : String
  total : ℚ
  date : Nat
deriving DecidableEq

/-- The service state: the contents of the orders table reached through
the connection opened in __init__. -/
structure ServiceState where
  orders : List OrderRecord
deriving DecidableEq

/-- Observable side effects of one call, in order: a database INSERT, or
a line printed to stdout. -/
inductive Effect where
  | dbInsert : OrderRecord → Effect
  | printLine : String → Effect
deriving DecidableEq

/-- A dynamically typed Python value, for the isinstance check in
is_premium_customer. -/
inductive PyValue where
  | str : String → PyValue
  | int : Int → PyValue
  | bool : Bool → PyValue
  | noneVal : PyValue
deriving DecidableEq

/-- item[k] on the embedded dictionary: the value when the key is
present, KeyError otherwise. -/
def dictGet (v : Option ℚ) (k : String) : Except PyErr ℚ :=
  match v with
  | some x => Except.ok x
  | none => Except.error (PyErr.keyError k)

/-- The accumulation loop of process_order:
for item in items: total += item[\x27price\x27] * item[\x27quantity\x27]. -/
def sumItemsFrom : List RawItem → ℚ → Except PyErr ℚ
  | [], acc => Except.ok acc
  | item :: rest, acc => do
      let p ← dictGet item.price ("price")
      let q ← dictGet item.quantity ("quantity")
      sumItemsFrom rest (acc + p * q)

/-- The subtotal of an items list, starting from total = 0. -/
def sumItems (items : List RawItem) : Except PyErr ℚ :=
  sumItemsFrom items 0

/-- Python truthiness of the discount_code argument: None and the empty
string are falsy. -/
def pyTruthy : Option String → Bool
  | none => false
  | some s => decide (s ≠ "")

/-- send_email: prints the simulated email line. -/
def send_email (email : String) (total : ℚ) : Effect :=
  Effect.printLine ("Email sent to " ++ email ++ " for $" ++ toString total)

/-- JSON string escaping for the characters json.dumps always escapes in
these names (quote and backslash). -/
def jsonEscapeChar (c : Char) : List Char :=
  if c = '"' ∨ c = '\\' then ['\\', c] else [c]

/-- Escape a whole string for embedding in a JSON string literal. -/
def jsonEscape (s : String) : String :=
  String.mk (List.flatten (s.data.map jsonEscapeChar))

/-- format_order: json.dumps of the customer, total and timestamp. -/
def format_order (customer_name : String) (total : ℚ) (now : Nat) : String :=
  "\x7b\"customer\": \"" ++ jsonEscape customer_name ++ "\", \"total\": " ++
    toString total ++ ", \"timestamp\": \"" ++ toString now ++ "\"\x7d"

/-- process_order: sums price*quantity over the items, applies the
order-type discount chain, applies the discount-code chain, inserts one
row, sends the email, and returns the formatted order string. On a
KeyError the exception propagates and no effect takes place. -/
def process_order (order_type customer_name email : String)
    (items : List RawItem) (discount_code : Option String)
    (now : Nat) (st : ServiceState) :
    Except PyErr (ServiceState × List Effect × String) := do
  let total0 ← sumItems items
  let total1 :=
    if order_type = "premium" then total0 * 0.9
    else if order_type = "regular" then total0 * 0.95
    else if order_type = "wholesale" then total0 * 0.8
    else total0
  let total :=
    if pyTruthy discount_code then
      if discount_code = some ("SAVE10") then total1 * 0.9
      else if discount_code = some ("SAVE20") then total1 * 0.8
      else total1
    else total1
  let record : OrderRecord := ⟨customer_name, total, now⟩
  Except.ok (⟨st.orders ++ [record]⟩,
    [Effect.dbInsert record, send_email email total],
    format_order customer_name total now)

/-- get_order_by_id: SELECT by rowid, returning the row (or none) and
leaving the state untouched. -/
def get_order_by_id (st : ServiceState) (order_id : Nat) :
    Option OrderRecord × ServiceState :=
  (st.orders.get? (order_id - 1), st)

/-- Python str.startswith: the candidate string begins with the given
characters. -/
def pyStartswith (s pre : String) : Bool :=
  pre.data.isPrefixOf s.data

/-- is_premium_customer: isinstance string check, then startswith. -/
def is_premium_customer (st : ServiceState) (customer_name : PyValue) :
    Bool × ServiceState :=
  (match customer_name with
   | PyValue.str s => pyStartswith s ("VIP")
   | _ => false, st)

/-- calculate_shipping: flat rate by weight threshold. -/
def calculate_shipping (st : ServiceState) (weight : ℚ) : ℚ × ServiceState :=
  (if weight > 50 then 25.99 else 9.99, st)

/-- Spec-side multiplicative factor of each order type. -/
def orderTypeFactor (order_type : String) : ℚ :=
  if order_type = "premium" then 0.9
  else if order_type = "regular" then 0.95
  else if order_type = "wholesale" then 0.8
  else 1

/-- Spec-side multiplicative factor of each discount code. -/
def codeFactor (discount_code : Option String) : ℚ :=
  if pyTruthy discount_code then
    if discount_code = some ("SAVE10") then 0.9
    else if discount_code = some ("SAVE20") then 0.8
    else 1
  else 1

/-- The total of the row a successful call inserts. -/
def insertedTotal (r : Except PyErr (ServiceState × List Effect × String)) :
    Option ℚ :=
  match r with
  | Except.ok (_, Effect.dbInsert rec :: _, _) => some rec.total
  | _ => none

/-- Whether an effect is a database INSERT. -/
def isDbInsert : Effect → Bool
  | Effect.dbInsert _ => true
  | _ => false

/-- The inline order-type discount chain of process_order multiplies the
running total by the order-type factor. -/
lemma orderType_chain (ot : String) (t : ℚ) :
    (if ot = "premium" then t * 0.9
     else if ot = "regular" then t * 0.95
     else if ot = "wholesale" then t * 0.8
     else t) = t * orderTypeFactor ot := by
  unfold orderTypeFactor
  split_ifs <;> ring

/-- The inline discount-code chain of process_order multiplies the
running total by the code factor. -/
lemma code_chain (dc : Option String) (t : ℚ) :
    (if pyTruthy dc then
       if dc = some ("SAVE10") then t * 0.9
       else if dc = some ("SAVE20") then t * 0.8
       else t
     else t) = t * codeFactor dc := by
  unfold codeFactor
  split_ifs <;> ring

/-- Closed form of a successful call: the state gains one row whose
total is the subtotal times both factors, the trace is the INSERT
followed by the email line, and the return value is the formatted
order. -/
lemma process_order_eq (ot c e : String) (items : List RawItem)
    (dc : Option String) (now : Nat) (st : ServiceState) (s : ℚ)
    (h : sumItems items = Except.ok s) :
    process_order ot c e items dc now st =
      Except.ok (⟨st.orders ++ [⟨c, s * orderTypeFactor ot * codeFactor dc, now⟩]⟩,
        [Effect.dbInsert ⟨c, s * orderTypeFactor ot * codeFactor dc, now⟩,
         send_email e (s * orderTypeFactor ot * codeFactor dc)],
        format_order c (s * orderTypeFactor ot * codeFactor dc) now) := by
  unfold process_order
  rw [h]
  simp only [Bind.bind, Except.bind]
  rw [orderType_chain, code_chain]

/-- A call whose subtotal loop raises propagates the exception. -/
lemma process_order_err (ot c e : String) (items : List RawItem)
    (dc : Option String) (now : Nat) (st : ServiceState) (k : PyErr)
    (h : sumItems items = Except.error k) :
    process_order ot c e items dc now st = Except.error k := by
  unfold process_order
  rw [h]
  rfl

/-- If every present price and quantity is non-negative, the
accumulation loop can only return a value at least its starting
accumulator. -/
lemma sumItemsFrom_nonneg (items : List RawItem) :
    ∀ (acc s : ℚ),
      (∀ item ∈ items, (∀ p, item.price = some p → 0 ≤ p) ∧
        (∀ q, item.quantity = some q → 0 ≤ q)) →
      0 ≤ acc → sumItemsFrom items acc = Except.ok s → 0 ≤ s := by
  induction items with
  | nil =>
      intro acc s _ hacc hs
      cases hs
      exact hacc
  | cons item rest ih =>
      intro acc s hitems hacc hs
      rcases hitems item (List.mem_cons_self item rest) with ⟨hp, hq⟩
      cases hprice : item.price with
      | none =>
          rw [sumItemsFrom, hprice] at hs
          cases hs
      | some p =>
          cases hquant : item.quantity with
          | none =>
              rw [sumItemsFrom, hprice, hquant] at hs
              cases hs
          | some q =>
              rw [sumItemsFrom, hprice, hquant] at hs
              refine ih (acc + p * q) s
                (fun i hi => hitems i (List.mem_cons_of_mem item hi)) ?_ hs
              have hp0 : (0 : ℚ) ≤ p := hp p hprice
              have hq0 : (0 : ℚ) ≤ q := hq q hquant
              positivity

/-- If some item lacks a price or a quantity key, the accumulation loop
raises a KeyError. -/
lemma sumItemsFrom_malformed (items : List RawItem) :
    ∀ (acc : ℚ),
      (∃ item ∈ items, item.price = none ∨ item.quantity = none) →
      ∃ k, sumItemsFrom items acc = Except.error (PyErr.keyError k) := by
  induction items with
  | nil =>
      intro acc h
      rcases h with ⟨item, hmem, _⟩
      cases hmem
  | cons item rest ih =>
      intro acc h
      cases hprice : item.price with
      | none =>
          refine ⟨"price", ?_⟩
          rw [sumItemsFrom, hprice]
          rfl
      | some p =>
          cases hquant : item.quantity with
          | none =>
              refine ⟨"quantity", ?_⟩
              rw [sumItemsFrom, hprice, hquant]
              rfl
          | some q =>
              rcases h with ⟨bad, hmem, hbad⟩
              rcases List.mem_cons.mp hmem with heq | htail
              · subst heq
                rw [hprice] at hbad
                rw [hquant] at hbad
                rcases hbad with hb | hb <;> cases hb
              · rcases ih (acc + p * q) ⟨bad, htail, hbad⟩ with ⟨k, hk⟩
                refine ⟨k, ?_⟩
                rw [sumItemsFrom, hprice, hquant]
                exact hk

/-- The order-type factor is non-negative. -/
lemma orderTypeFactor_nonneg (ot : String) : 0 ≤ orderTypeFactor ot := by
  unfold orderTypeFactor
  split_ifs <;> norm_num

/-- The discount-code factor is non-negative. -/
lemma codeFactor_nonneg (dc : Option String) : 0 ≤ codeFactor dc := by
  unfold codeFactor
  split_ifs <;> norm_num

/-- C1: for an order whose items sum to 100, process_order computes
total 90 for a premium order with no code, 85.5 for a regular order
with code SAVE10, and 64 for a wholesale order with code SAVE20: the
two discounts compound multiplicatively. -/
theorem C1_discount_totals (c e : String) (items : List RawItem) (now : Nat)
    (st : ServiceState) (h : sumItems items = Except.ok 100) :
    insertedTotal (process_order ("premium") c e items none now st) = some 90 ∧
    insertedTotal (process_order ("regular") c e items (some ("SAVE10")) now st) =
      some 85.5 ∧
    insertedTotal (process_order ("wholesale") c e items (some ("SAVE20")) now st) =
      some 64 := by
  refine ⟨?_, ?_, ?_⟩ <;>
    rw [process_order_eq _ _ _ _ _ _ _ _ h] <;>
      simp [insertedTotal, orderTypeFactor, codeFactor, pyTruthy,
        String.reduceEq] <;>
        norm_num

/-- Witness for C1 at a one-item order of price 100, quantity 1. -/
theorem C1_witness :
    sumItems [⟨some 100, some 1⟩] = Except.ok 100 ∧
    (insertedTotal (process_order ("premium") ("Alice") ("alice@x")
        [⟨some 100, some 1⟩] none 0 ⟨[]⟩) = some 90 ∧
     insertedTotal (process_order ("regular") ("Alice") ("alice@x")
        [⟨some 100, some 1⟩] (some ("SAVE10")) 0 ⟨[]⟩) = some 85.5 ∧
     insertedTotal (process_order ("wholesale") ("Alice") ("alice@x")
        [⟨some 100, some 1⟩] (some ("SAVE20")) 0 ⟨[]⟩) = some 64) :=
  ⟨by simp [sumItems, sumItemsFrom, dictGet, Bind.bind, Except.bind],
   C1_discount_totals ("Alice") ("alice@x") [⟨some 100, some 1⟩] 0 ⟨[]⟩
     (by simp [sumItems, sumItemsFrom, dictGet, Bind.bind, Except.bind])⟩

/-- C3: calculate_shipping returns 25.99 at weight 51 and 9.99 at
weight 50, and in general 25.99 exactly when the weight is strictly
greater than 50, 9.99 otherwise. -/
theorem C3_calculate_shipping (st : ServiceState) (w : ℚ) :
    (calculate_shipping st 51).1 = 25.99 ∧
    (calculate_shipping st 50).1 = 9.99 ∧
    (calculate_shipping st w).1 = (if w > 50 then 25.99 else 9.99) := by
  refine ⟨?_, ?_, rfl⟩ <;> norm_num [calculate_shipping]

/-- C4: is_premium_customer is true on the string VIP123, false on the
string Bob, and in general true exactly when the string starts with
VIP. -/
theorem C4_is_premium_customer (st : ServiceState) (s : String) :
    (is_premium_customer st (PyValue.str ("VIP123"))).1 = true ∧
    (is_premium_customer st (PyValue.str ("Bob"))).1 = false ∧
    (is_premium_customer st (PyValue.str s)).1 = pyStartswith s ("VIP") := by
  exact ⟨rfl, rfl, rfl⟩

/-- C8: calculate_shipping and is_premium_customer are deterministic
and touch no service state: equal arguments give equal results on any
two states, and the state comes back unchanged. -/
theorem C8_aux_pure (st1 st2 : ServiceState) (w : ℚ) (v : PyValue) :
    (calculate_shipping st1 w).1 = (calculate_shipping st2 w).1 ∧
    (calculate_shipping st1 w).2 = st1 ∧
    (is_premium_customer st1 v).1 = (is_premium_customer st2 v).1 ∧
    (is_premium_customer st1 v).2 = st1 :=
  ⟨rfl, rfl, rfl, rfl⟩

/-- C10: is_premium_customer returns false on every non-string value
instead of raising. -/
theorem C10_nonstring_false (st : ServiceState) (v : PyValue)
    (h : ∀ s, v ≠ PyValue.str s) :
    is_premium_customer st v = (false, st) := by
  cases v with
  | str s => exact absurd rfl (h s)
  | int n => rfl
  | bool b => rfl
  | noneVal => rfl

/-- C2: a successful call sums price times quantity over the items,
multiplies by the order-type factor, then by the discount-code factor,
then inserts the one record, then prints the simulated email line, and
returns the formatted string, which contains the (JSON-escaped)
customer name and the rendered total. -/
theorem C2_steps (ot c e : String) (items : List RawItem) (dc : Option String)
    (now : Nat) (st : ServiceState) (s : ℚ)
    (h : sumItems items = Except.ok s) :
    process_order ot c e items dc now st =
      Except.ok (⟨st.orders ++ [⟨c, s * orderTypeFactor ot * codeFactor dc, now⟩]⟩,
        [Effect.dbInsert ⟨c, s * orderTypeFactor ot * codeFactor dc, now⟩,
         Effect.printLine ("Email sent to " ++ e ++ " for $" ++
           toString (s * orderTypeFactor ot * codeFactor dc))],
        format_order c (s * orderTypeFactor ot * codeFactor dc) now) ∧
    (∃ a b, format_order c (s * orderTypeFactor ot * codeFactor dc) now =
      a ++ jsonEscape c ++ b) ∧
    (∃ a b, format_order c (s * orderTypeFactor ot * codeFactor dc) now =
      a ++ toString (s * orderTypeFactor ot * codeFactor dc) ++ b) := by
  refine ⟨process_order_eq ot c e items dc now st s h, ?_, ?_⟩
  · exact ⟨"\x7b\"customer\": \"",
      "\", \"total\": " ++ toString (s * orderTypeFactor ot * codeFactor dc) ++
        ", \"timestamp\": \"" ++ toString now ++ "\"\x7d",
      by simp [format_order, String.append_assoc]⟩
  · exact ⟨"\x7b\"customer\": \"" ++ jsonEscape c ++ "\", \"total\": ",
      ", \"timestamp\": \"" ++ toString now ++ "\"\x7d",
      by simp [format_order, String.append_assoc]⟩

/-- Witness for C2 at a premium one-item order. -/
theorem C2_witness :
    sumItems [⟨some 100, some 1⟩] = Except.ok 100 ∧
    (process_order ("premium") ("Bob") ("b@x") [⟨some 100, some 1⟩] none 3 ⟨[]⟩ =
      Except.ok (⟨[⟨"Bob", 100 * orderTypeFactor ("premium") * codeFactor none, 3⟩]⟩,
        [Effect.dbInsert ⟨"Bob", 100 * orderTypeFactor ("premium") * codeFactor none, 3⟩,
         Effect.printLine ("Email sent to " ++ "b@x" ++ " for $" ++
           toString (100 * orderTypeFactor ("premium") * codeFactor none))],
        format_order ("Bob") (100 * orderTypeFactor ("premium") * codeFactor none) 3) ∧
     (∃ a b, format_order ("Bob") (100 * orderTypeFactor ("premium") * codeFactor none) 3 =
       a ++ jsonEscape ("Bob") ++ b) ∧
     (∃ a b, format_order ("Bob") (100 * orderTypeFactor ("premium") * codeFactor none) 3 =
       a ++ toString (100 * orderTypeFactor ("premium") * codeFactor none) ++ b)) :=
  ⟨by simp [sumItems, sumItemsFrom, dictGet, Bind.bind, Except.bind],
   C2_steps ("premium") ("Bob") ("b@x") [⟨some 100, some 1⟩] none 3 ⟨[]⟩ 100
     (by simp [sumItems, sumItemsFrom, dictGet, Bind.bind, Except.bind])⟩

/-- C5: a call whose items list contains an item lacking a price or
quantity key raises an exception that propagates, and no record is
inserted. -/
theorem C5_malformed_raises (ot c e : String) (items : List RawItem)
    (dc : Option String) (now : Nat) (st : ServiceState)
    (h : ∃ item ∈ items, item.price = none ∨ item.quantity = none) :
    (∃ k, process_order ot c e items dc now st =
      Except.error (PyErr.keyError k)) ∧
    ∀ out, process_order ot c e items dc now st ≠ Except.ok out := by
  rcases sumItemsFrom_malformed items 0 h with ⟨k, hk⟩
  have herr := process_order_err ot c e items dc now st (PyErr.keyError k) hk
  refine ⟨⟨k, herr⟩, fun out hout => ?_⟩
  rw [herr] at hout
  cases hout

/-- Witness for C5 at a one-item order whose item lacks a price. -/
theorem C5_witness :
    (∃ item ∈ ([⟨none, some 1⟩] : List RawItem),
      item.price = none ∨ item.quantity = none) ∧
    ((∃ k, process_order ("regular") ("Bob") ("b@x") [⟨none, some 1⟩] none 0 ⟨[]⟩ =
       Except.error (PyErr.keyError k)) ∧
     ∀ out, process_order ("regular") ("Bob") ("b@x") [⟨none, some 1⟩] none 0 ⟨[]⟩ ≠
       Except.ok out) :=
  ⟨⟨⟨none, some 1⟩, List.mem_cons_self _ _, Or.inl rfl⟩,
   C5_malformed_raises ("regular") ("Bob") ("b@x") [⟨none, some 1⟩] none 0 ⟨[]⟩
     ⟨⟨none, some 1⟩, List.mem_cons_self _ _, Or.inl rfl⟩⟩

/-- C6: when every present price and quantity is non-negative, the one
total a successful call computes is non-negative, and it is the value
persisted, printed in the email line, and embedded in the returned
string. -/
theorem C6_total_nonneg (ot c e : String) (items : List RawItem)
    (dc : Option String) (now : Nat) (st : ServiceState)
    (hitems : ∀ item ∈ items, (∀ p, item.price = some p → 0 ≤ p) ∧
      (∀ q, item.quantity = some q → 0 ≤ q))
    (st2 : ServiceState) (effs : List Effect) (ret : String)
    (hok : process_order ot c e items dc now st = Except.ok (st2, effs, ret)) :
    ∃ t : ℚ, 0 ≤ t ∧
      st2.orders = st.orders ++ [⟨c, t, now⟩] ∧
      effs = [Effect.dbInsert ⟨c, t, now⟩,
        Effect.printLine ("Email sent to " ++ e ++ " for $" ++ toString t)] ∧
      ret = format_order c t now := by
  cases hs : sumItems items with
  | error k =>
      rw [process_order_err ot c e items dc now st k hs] at hok
      cases hok
  | ok s =>
      rw [process_order_eq ot c e items dc now st s hs] at hok
      simp only [Except.ok.injEq, Prod.mk.injEq] at hok
      rcases hok with ⟨h1, h2, h3⟩
      refine ⟨s * orderTypeFactor ot * codeFactor dc, ?_, ?_, ?_, ?_⟩
      · exact mul_nonneg
          (mul_nonneg (sumItemsFrom_nonneg items 0 s hitems le_rfl hs)
            (orderTypeFactor_nonneg ot))
          (codeFactor_nonneg dc)
      · rw [← h1]
      · rw [← h2]
        rfl
      · rw [← h3]

/-- Witness for C6 at a premium one-item order of price 100. -/
theorem C6_witness :
    (∀ item ∈ ([⟨some 100, some 1⟩] : List RawItem),
      (∀ p, item.price = some p → 0 ≤ p) ∧
      (∀ q, item.quantity = some q → 0 ≤ q)) ∧
    process_order ("premium") ("Bob") ("b@x") [⟨some 100, some 1⟩] none 7 ⟨[]⟩ =
      Except.ok (⟨[⟨"Bob", 100 * orderTypeFactor ("premium") * codeFactor none, 7⟩]⟩,
        [Effect.dbInsert ⟨"Bob", 100 * orderTypeFactor ("premium") * codeFactor none, 7⟩,
         send_email ("b@x") (100 * orderTypeFactor ("premium") * codeFactor none)],
        format_order ("Bob") (100 * orderTypeFactor ("premium") * codeFactor none) 7) ∧
    (∃ t : ℚ, 0 ≤ t ∧
      ([⟨"Bob", 100 * orderTypeFactor ("premium") * codeFactor none, 7⟩] :
        List OrderRecord) = [] ++ [⟨"Bob", t, 7⟩] ∧
      ([Effect.dbInsert ⟨"Bob", 100 * orderTypeFactor ("premium") * codeFactor none, 7⟩,
        send_email ("b@x") (100 * orderTypeFactor ("premium") * codeFactor none)] :
        List Effect) =
        [Effect.dbInsert ⟨"Bob", t, 7⟩,
         Effect.printLine ("Email sent to " ++ "b@x" ++ " for $" ++ toString t)] ∧
      format_order ("Bob") (100 * orderTypeFactor ("premium") * codeFactor none) 7 =
        format_order ("Bob") t 7) :=
  ⟨fun item hmem => by
     rcases List.mem_singleton.mp hmem with rfl
     exact ⟨fun p hp => by injection hp with h; subst h; norm_num,
       fun q hq => by injection hq with h; subst h; norm_num⟩,
   process_order_eq ("premium") ("Bob") ("b@x") [⟨some 100, some 1⟩] none 7 ⟨[]⟩
     100 (by simp [sumItems, sumItemsFrom, dictGet, Bind.bind, Except.bind]),
   C6_total_nonneg ("premium") ("Bob") ("b@x") [⟨some 100, some 1⟩] none 7 ⟨[]⟩
     (fun item hmem => by
       rcases List.mem_singleton.mp hmem with rfl
       exact ⟨fun p hp => by injection hp with h; subst h; norm_num,
         fun q hq => by injection hq with h; subst h; norm_num⟩)
     ⟨[⟨"Bob", 100 * orderTypeFactor ("premium") * codeFactor none, 7⟩]⟩
     [Effect.dbInsert ⟨"Bob", 100 * orderTypeFactor ("premium") * codeFactor none, 7⟩,
      send_email ("b@x") (100 * orderTypeFactor ("premium") * codeFactor none)]
     (format_order ("Bob") (100 * orderTypeFactor ("premium") * codeFactor none) 7)
     (process_order_eq ("premium") ("Bob") ("b@x") [⟨some 100, some 1⟩] none 7 ⟨[]⟩
       100 (by simp [sumItems, sumItemsFrom, dictGet, Bind.bind, Except.bind]))⟩

/-- C7: a successful call appends exactly one record to the orders
table, its trace contains exactly one INSERT, and get_order_by_id
leaves any state unchanged. -/
theorem C7_insert_once (ot c e : String) (items : List RawItem)
    (dc : Option String) (now : Nat) (st : ServiceState)
    (out : ServiceState × List Effect × String)
    (hok : process_order ot c e items dc now st = Except.ok out) :
    (∃ r, out.1.orders = st.orders ++ [r]) ∧
    out.2.1.countP (fun eff => isDbInsert eff) = 1 ∧
    ∀ (st0 : ServiceState) (oid : Nat), (get_order_by_id st0 oid).2 = st0 := by
  cases hs : sumItems items with
  | error k =>
      rw [process_order_err ot c e items dc now st k hs] at hok
      cases hok
  | ok s =>
      rw [process_order_eq ot c e items dc now st s hs] at hok
      cases hok.symm
      refine ⟨⟨⟨c, s * orderTypeFactor ot * codeFactor dc, now⟩, rfl⟩, ?_, fun _ _ => rfl⟩
      simp [List.countP, List.countP.go, isDbInsert, send_email]

/-- Witness for C7 at a premium one-item order of price 100. -/
theorem C7_witness :
    process_order ("premium") ("Bob") ("b@y") [⟨some 100, some 1⟩] none 9 ⟨[]⟩ =
      Except.ok (⟨[⟨"Bob", 100 * orderTypeFactor ("premium") * codeFactor none, 9⟩]⟩,
        [Effect.dbInsert ⟨"Bob", 100 * orderTypeFactor ("premium") * codeFactor none, 9⟩,
         send_email ("b@y") (100 * orderTypeFactor ("premium") * codeFactor none)],
        format_order ("Bob") (100 * orderTypeFactor ("premium") * codeFactor none) 9) ∧
    ((∃ r, ([⟨"Bob", 100 * orderTypeFactor ("premium") * codeFactor none, 9⟩] :
        List OrderRecord) = [] ++ [r]) ∧
     List.countP (fun eff => isDbInsert eff)
       [Effect.dbInsert ⟨"Bob", 100 * orderTypeFactor ("premium") * codeFactor none, 9⟩,
        send_email ("b@y") (100 * orderTypeFactor ("premium") * codeFactor none)] = 1 ∧
     ∀ (st0 : ServiceState) (oid : Nat), (get_order_by_id st0 oid).2 = st0) :=
  ⟨process_order_eq ("premium") ("Bob") ("b@y") [⟨some 100, some 1⟩] none 9 ⟨[]⟩
     100 (by simp [sumItems, sumItemsFrom, dictGet, Bind.bind, Except.bind]),
   C7_insert_once ("premium") ("Bob") ("b@y") [⟨some 100, some 1⟩] none 9 ⟨[]⟩
     (⟨[⟨"Bob", 100 * orderTypeFactor ("premium") * codeFactor none, 9⟩]⟩,
      [Effect.dbInsert ⟨"Bob", 100 * orderTypeFactor ("premium") * codeFactor none, 9⟩,
       send_email ("b@y") (100 * orderTypeFactor ("premium") * codeFactor none)],
      format_order ("Bob") (100 * orderTypeFactor ("premium") * codeFactor none) 9)
     (process_order_eq ("premium") ("Bob") ("b@y") [⟨some 100, some 1⟩] none 9 ⟨[]⟩
       100 (by simp [sumItems, sumItemsFrom, dictGet, Bind.bind, Except.bind]))⟩

/-- C9: when the order type is none of the three known types and the
discount code is absent, empty, or unrecognized, the computed total is
the raw subtotal: unknown codes are silently ignored, not rejected. -/
theorem C9_no_discount (ot c e : String) (items : List RawItem)
    (dc : Option String) (now : Nat) (st : ServiceState) (s : ℚ)
    (hot : ot ≠ "premium" ∧ ot ≠ "regular" ∧ ot ≠ "wholesale")
    (hdc : ∀ t, dc = some t → t ≠ "SAVE10" ∧ t ≠ "SAVE20")
    (hs : sumItems items = Except.ok s) :
    insertedTotal (process_order ot c e items dc now st) = some s := by
  rw [process_order_eq ot c e items dc now st s hs]
  have h1 : orderTypeFactor ot = 1 := by
    unfold orderTypeFactor
    rcases hot with ⟨ha, hb, hc⟩
    rw [if_neg ha, if_neg hb, if_neg hc]
  have h2 : codeFactor dc = 1 := by
    unfold codeFactor
    split_ifs with ha hb hc
    · exact absurd rfl (hdc ("SAVE10") hb).1
    · exact absurd rfl (hdc ("SAVE20") hc).2
    · rfl
    · rfl
  rw [h1, h2]
  simp [insertedTotal]

/-- Witness for C9 at an unknown order type and an unknown code. -/
theorem C9_witness :
    (("gift" : String) ≠ "premium" ∧ ("gift" : String) ≠ "regular" ∧
      ("gift" : String) ≠ "wholesale") ∧
    (∀ t, some ("HELLO") = some t → t ≠ "SAVE10" ∧ t ≠ "SAVE20") ∧
    sumItems [⟨some 6, some 1⟩] = Except.ok 6 ∧
    insertedTotal (process_order ("gift") ("Bob") ("b@x") [⟨some 6, some 1⟩]
      (some ("HELLO")) 0 ⟨[]⟩) = some 6 :=
  ⟨⟨by decide, by decide, by decide⟩,
   fun t ht => by injection ht with h; subst h; exact ⟨by decide, by decide⟩,
   by simp [sumItems, sumItemsFrom, dictGet, Bind.bind, Except.bind],
   C9_no_discount ("gift") ("Bob") ("b@x") [⟨some 6, some 1⟩] (some ("HELLO"))
     0 ⟨[]⟩ 6
     ⟨by decide, by decide, by decide⟩
     (fun t ht => by injection ht with h; subst h; exact ⟨by decide, by decide⟩)
     (by simp [sumItems, sumItemsFrom, dictGet, Bind.bind, Except.bind])⟩

/-- Witness for C10 at the integer value 5. -/
theorem C10_witness :
    (∀ s, PyValue.int 5 ≠ PyValue.str s) ∧
    is_premium_customer ⟨[]⟩ (PyValue.int 5) = (false, ⟨[]⟩) :=
  ⟨fun _ h => PyValue.noConfusion h,
   C10_nonstring_false ⟨[]⟩ (PyValue.int 5) (fun _ h => PyValue.noConfusion h)⟩
